import Mathlib

/-!
Verification development for the neuralnet-evolution repository
(`src/main.py`).  The Python source is shallowly embedded: pure numeric
code becomes Lean functions over `ℚ`/`ℝ` (numpy floats are idealised as
exact arithmetic), stateful methods become functions returning updated
records, numpy's random draws become explicit arguments, and Python
exceptions become an `Except` error channel.
-/

namespace Evo

/-- The configuration value loaded from `params.yaml` (`params` dict in
`main.py`).  The file itself is external I/O; the core only reads these
fields.  `mean_physics` / `std_physics` are the derived 4-vectors
`[death, sex, strength, velocity]` built at load time; they are kept as
the individual fields here and regrouped in `mkCell`. -/
structure Params where
  grid_size : ℕ
  n_cell : ℕ
  num_sim : ℕ
  num_sensors : ℕ
  num_actions : ℕ
  mean_death : ℚ
  mean_sex : ℚ
  mean_strength : ℚ
  mean_velocity : ℚ
  std_death : ℚ
  std_sex : ℚ
  std_strength : ℚ
  std_velocity : ℚ

/-- numpy `ndarray.round()` on a scalar: round to the nearest integer,
ties to the nearest even integer (IEEE round-half-even), on rationals. -/
def npRound (q : ℚ) : ℤ :=
  if q - (⌊q⌋ : ℚ) < 1 / 2 then ⌊q⌋
  else if 1 / 2 < q - (⌊q⌋ : ℚ) then ⌊q⌋ + 1
  else if 2 ∣ ⌊q⌋ then ⌊q⌋ else ⌊q⌋ + 1

/-- numpy `ndarray.round()` on a real scalar (used after the sigmoid in
`Cell.think`): round to nearest, ties to even. -/
noncomputable def roundHalfEven (x : ℝ) : ℤ :=
  if x - (⌊x⌋ : ℝ) < 1 / 2 then ⌊x⌋
  else if 1 / 2 < x - (⌊x⌋ : ℝ) then ⌊x⌋ + 1
  else if 2 ∣ ⌊x⌋ then ⌊x⌋ else ⌊x⌋ + 1

/-- Dot product of a weight-matrix row with the sensor vector: one entry
of `self.brain_dna @ self.sensors`. -/
def dotR (a b : List ℝ) : ℝ := (List.zipWith (fun x y => x * y) a b).sum

/-- The logistic squashing in `Cell.think`: `1 / (1 + np.exp(-1 * z))`. -/
noncomputable def sigmoid (z : ℝ) : ℝ := 1 / (1 + Real.exp (-1 * z))

/-- One agent, `class Cell` of `main.py`.  `phys_dna` is kept through its
four derived fields (`death_age`, `sex`, `strength`, `velocity`);
positions and physical traits are rationals (idealised floats), the
brain weights and sensors are reals because `think`/`update_sensors`
apply `exp`/`sin` to them.  `boundRuleName` models a cell-rule attached
by `setattr` at Simulation construction (no such attribute exists on a
fresh `Cell`, hence `none`). -/
structure Cell where
  grid_size : ℚ
  alive : Bool
  age : ℕ
  death_age : ℚ
  sex : ℚ
  strength : ℚ
  velocity : ℚ
  pos : ℚ × ℚ
  brain_dna : List (List ℝ)
  sensors : List ℝ
  actions : List ℚ
  boundRuleName : Option String

/-- `Cell.__init__`.  The three `np.random` draws are explicit
arguments: `d` is the 4-vector `normal(0,1,4)` (combined as
`d * std_physics + mean_physics`), `br` is the sampled
`normal(0, 0.01, (num_actions, num_sensors))` weight matrix, and `u` is
the `uniform(0, grid_size-1, 2)` position draw (rounded, as in the
source). -/
def mkCell (p : Params) (d : ℚ × ℚ × ℚ × ℚ) (br : List (List ℝ))
    (u : ℚ × ℚ) : Cell :=
  { grid_size := (p.grid_size : ℚ)
    alive := true
    age := 0
    death_age := d.1 * p.std_death + p.mean_death
    sex := (npRound (d.2.1 * p.std_sex + p.mean_sex) : ℚ)
    strength := d.2.2.1 * p.std_strength + p.mean_strength
    velocity := (npRound (d.2.2.2 * p.std_velocity + p.mean_velocity) : ℚ)
    pos := ((npRound u.1 : ℚ), (npRound u.2 : ℚ))
    brain_dna := br
    sensors := List.replicate p.num_sensors (0 : ℝ)
    actions := List.replicate p.num_actions (0 : ℚ)
    boundRuleName := none }

/-- `Cell.move`: per axis, `pos + (actions[:2].ravel() -
actions[2:4].ravel()) * velocity`, taken `min` against `grid_size - 1`
and then `max` against `0` (the order of `np.minimum` / `np.maximum` in
the source).  Action channels are read positionally, matching the numpy
slices for the configured `num_actions ≥ 4`. -/
def Cell.move (c : Cell) : Cell :=
  { c with pos :=
      (max (min (c.pos.1 + (c.actions.getD 0 0 - c.actions.getD 2 0) * c.velocity)
          (c.grid_size - 1)) 0,
       max (min (c.pos.2 + (c.actions.getD 1 0 - c.actions.getD 3 0) * c.velocity)
          (c.grid_size - 1)) 0) }

/-- `Cell.update_sensors(clock, pos_map)`: the sensor vector is always
the five entries `[1, random, sin(pi*clock/10), pos.x/grid_size,
pos.y/grid_size]`; `r` is the explicit `np.random.random(1).item()`
draw, and `pm` is accepted and ignored exactly as in the source. -/
noncomputable def Cell.update_sensors (c : Cell) (clock : ℕ)
    (pm : List (ℤ × ℤ)) (r : ℝ) : Cell :=
  { c with sensors :=
      [1, r, Real.sin (Real.pi * (clock : ℝ) / 10),
       (c.pos.1 : ℝ) / (c.grid_size : ℝ), (c.pos.2 : ℝ) / (c.grid_size : ℝ)] }

/-- The action vector computed by `Cell.think`:
`(1 / (1 + np.exp(-1 * brain_dna @ sensors))).round()`, one entry per
row of the weight matrix. -/
noncomputable def thinkVec (w : List (List ℝ)) (s : List ℝ) : List ℚ :=
  w.map (fun row => ((roundHalfEven (sigmoid (dotR row s)) : ℤ) : ℚ))

/-- `Cell.think`. -/
noncomputable def Cell.think (c : Cell) : Cell :=
  { c with actions := thinkVec c.brain_dna c.sensors }

/-- `Cell.live(clock, pos_map)`: `move`, then `update_sensors`, then
`think`, then `age += 1`, then `if age >= death_age: alive = False`. -/
noncomputable def Cell.live (c : Cell) (clock : ℕ) (pm : List (ℤ × ℤ))
    (r : ℝ) : Cell :=
  let c1 := Cell.think (Cell.update_sensors (Cell.move c) clock pm r)
  let c2 := { c1 with age := c1.age + 1 }
  if c2.death_age ≤ (c2.age : ℚ) then { c2 with alive := false } else c2

/-- A sequence of per-tick compound steps: `live` applied for each
`(clock, pos_map, random)` triple in order. -/
noncomputable def liveSteps (c : Cell)
    (l : List (ℕ × List (ℤ × ℤ) × ℝ)) : Cell :=
  l.foldl (fun a i => Cell.live a i.1 i.2.1 i.2.2) c

/-- Python exceptions visible in `main.py`: `ValueError` (raised by the
tuple unpacking in `get_grid` on an empty population, and the class the
run loop catches) and `AttributeError` (raised by failed attribute
lookups, including the rule-resolution errors of `Simulation.__init__`).
The `except ValueError` clause in `Simulation.main` catches only the
first kind. -/
inductive PyErr where
  | valueError (msg : String)
  | attributeError (msg : String)
deriving DecidableEq

/-- The value stored in `Environment.cellrule`: `__init__` puts the
string `"default"` there; `Simulation.__init__` (line 131) overwrites it
with the `(name, function)` registry tuple, recorded here by its name
component (a Lean record cannot store the function itself). -/
inductive CellruleSlot where
  | str (s : String)
  | entry (name : String)
deriving DecidableEq

/-- `class Environment`.  `pos_map` is initialised to the integer `0` in
Python and only ever read after `get_grid` rebuilt it as a list of
integer pairs; it is modelled as a list (initially empty).  `boundSim`
records a simulation-rule attached by `setattr` under its own name. -/
structure Environment where
  clock : ℕ
  size : ℕ
  cells : List Cell
  grid : List (List ℕ)
  posMap : List (ℤ × ℤ)
  cellrule : CellruleSlot
  boundSim : Option String

/-- `Environment.__init__`, with the freshly sampled population passed
in explicitly (in Python, `[Cell() for _ in range(n_cell)]`). -/
def mkEnvironment (p : Params) (cells : List Cell) : Environment :=
  { clock := 0
    size := p.grid_size
    cells := cells
    grid := List.replicate p.grid_size (List.replicate p.grid_size 0)
    posMap := []
    cellrule := CellruleSlot.str "default"
    boundSim := none }

/-- `Environment.update`.  `call_all(self.cellrule, self.clock,
self.pos_map)` dispatches by the stored rule name on each cell; the
per-cell operation that name resolves to is passed here as `rule` (and
its name as `ruleName`), so one name-keyed broadcast is one `map`.  The
second broadcast `call_all("think")` always resolves to `Cell.think`.
Returns the updated environment, the sentinel (`0` = ended, `1` =
continue), and the list of broadcasts performed, in order.  The
emptiness guard is `np.any(self.cells)`: `Cell` objects are always
truthy, so it is false exactly on the empty list. -/
noncomputable def Environment.update (ruleName : String)
    (rule : Cell → ℕ → List (ℤ × ℤ) → Cell) (e : Environment) :
    Environment × ℕ × List String :=
  if e.cells.isEmpty then (e, 0, [])
  else
    ({ e with
        clock := e.clock + 1
        cells := ((e.cells.map (fun c => rule c e.clock e.posMap)).map
            Cell.think).filter (fun c => c.alive) },
      1, [ruleName, "think"])

/-- Python `int()` on a rational: truncation toward zero (the
`int(cell.pos[i])` coordinate conversion in `get_grid`). -/
def pyInt (q : ℚ) : ℤ := q.num.tdiv (q.den : ℤ)

/-- `self.grid[rows, cols] = 1` for one `(row, col)` pair: set entry
`(x, y)` of the nested list to `1`.  Out-of-range indices leave the
grid unchanged here; numpy would raise, but every caller in the
development restricts to in-range coordinates (positions are clamped
into the grid). -/
def set2d : List (List ℕ) → ℕ → ℕ → List (List ℕ)
  | [], _, _ => []
  | row :: g, 0, y => row.set y 1 :: g
  | row :: g, x + 1, y => row :: set2d g x y

/-- `set2d` on the integer coordinates produced by `pyInt`. -/
def set2dZ (g : List (List ℕ)) (x y : ℤ) : List (List ℕ) :=
  set2d g x.toNat y.toNat

/-- `np.sum` of the occupancy grid. -/
def sum2d (g : List (List ℕ)) : ℕ := (g.map (fun row => row.sum)).sum

/-- The `ValueError` message of `rows, cols = zip(*self.pos_map)` on an
empty `pos_map`. -/
def unpackMsg : String := "not enough values to unpack (expected 2, got 0)"

/-- `Environment.get_grid`: zero the grid, rebuild `pos_map` from the
live cells' truncated integer coordinates, then `rows, cols =
zip(*pos_map)` — which raises `ValueError` when the population (hence
`pos_map`) is empty — and mark each occupied coordinate with `1`. -/
def Environment.get_grid (e : Environment) : Except PyErr Environment :=
  let grid0 := List.replicate e.size (List.replicate e.size 0)
  let pm := e.cells.map (fun c => (pyInt c.pos.1, pyInt c.pos.2))
  if pm.isEmpty then Except.error (PyErr.valueError unpackMsg)
  else Except.ok { e with
    grid := pm.foldl (fun g q => set2dZ g q.1 q.2) grid0
    posMap := pm }

/-- One iteration of the `try` block in `Simulation.main`: invoke the
bound simulation-rule on the environment, then `get_grid` (then
`plotgrid`, which is external rendering with no core effect). -/
def runStep (rule : Environment → Except PyErr Environment)
    (e : Environment) : Except PyErr Environment :=
  match rule e with
  | Except.error err => Except.error err
  | Except.ok e1 => e1.get_grid

/-- The `for i in range(num_sim)` loop of `Simulation.main`.  A
`ValueError` from the `try` block is caught (`print("Dead")`, recorded
as the `Bool` diagnostic flag) and breaks the loop; any other exception
propagates.  Returns the final environment and whether the loop ended
early. -/
def runLoop (rule : Environment → Except PyErr Environment) :
    ℕ → Environment → Except PyErr (Environment × Bool)
  | 0, e => Except.ok (e, false)
  | n + 1, e =>
    match runStep rule e with
    | Except.ok e1 => runLoop rule n e1
    | Except.error (PyErr.valueError _) => Except.ok (e, true)
    | Except.error (PyErr.attributeError m) =>
        Except.error (PyErr.attributeError m)

/-- `Simulation.main`: run the loop, then `return 0` — the same return
value whether the loop completed all iterations or ended early. -/
def simMain (rule : Environment → Except PyErr Environment) (numSim : ℕ)
    (e : Environment) : Except PyErr (ℕ × Environment × Bool) :=
  (runLoop rule numSim e).map (fun t => (0, t.1, t.2))

/-- The return-code component of a `simMain` result, when it returned
normally. -/
def retcodeOf (x : Except PyErr (ℕ × Environment × Bool)) : Option ℕ :=
  x.toOption.map (fun t => t.1)

/-- The ended-early diagnostic flag of a `simMain` result, when it
returned normally. -/
def earlyOf (x : Except PyErr (ℕ × Environment × Bool)) : Option Bool :=
  x.toOption.map (fun t => t.2.2)

/-- `class Simulation` after a (hypothetically) successful
`__init__`: the resolved simulation-rule name and the owned
environment. -/
structure Simulation where
  simruleName : String
  e : Environment

/-- The `AttributeError` message for an unknown simulation-rule name:
the f-string at line 117 of `main.py`, enumerating every registry
name. -/
def simRuleErrMsg {σ : Type} (w : String) (reg : List (String × σ)) :
    String :=
  w ++ " is not a valid simulation ruleset. [" ++
    String.intercalate ", " (reg.map (fun r => r.1)) ++ "]"

/-- The `AttributeError` message for an unknown cell-rule name (line 126
of `main.py`). -/
def cellRuleErrMsg {κ : Type} (w : String) (reg : List (String × κ)) :
    String :=
  w ++ " is not a valid cell ruleset. [" ++
    String.intercalate ", " (reg.map (fun r => r.1)) ++ "]"

/-- The `for c in self.e.cells: setattr(c, self.cellrule[0],
self.cellrule[1])` loop of `Simulation.__init__`.  `selfCellrule` is the
value of the `cellrule` attribute on the Simulation object at that
point; reading a missing attribute raises `AttributeError` (class
`Simulation` has no `__getattr__` fallback). -/
def bindCells (selfCellrule : Option String) :
    List Cell → Except PyErr (List Cell)
  | [] => Except.ok []
  | c :: cs =>
    match selfCellrule with
    | none => Except.error
        (PyErr.attributeError "Simulation object has no attribute cellrule")
    | some nm =>
      match bindCells (some nm) cs with
      | Except.error err => Except.error err
      | Except.ok rest => Except.ok ({ c with boundRuleName := some nm } :: rest)

/-- `Simulation.__init__(wsimrule, wcellrule)`.  The two registries
(`inspect.getmembers` of `rules.sim_rules` / `rules.cell_rules`, modules
not part of the core) are passed as name-payload lists; `cells` is the
population sampled by `Environment.__init__`.  Steps, in source order:
resolve the simulation-rule (`next(..., None)` = `List.find?`), raise on
failure; build the environment and attach the rule under its own name;
resolve the cell-rule, raise on failure; then run the per-cell binding
loop.  That loop reads `self.cellrule`, and `__init__` never assigns
`self.cellrule` (line 124 binds only the local variable `cellrule`, and
line 131 — which assigns `self.e.cellrule` — runs after the loop), so
the loop is entered with no such attribute: `bindCells` receives
`none`. -/
def simInit {σ κ : Type} (p : Params) (simReg : List (String × σ))
    (cellReg : List (String × κ)) (wsim wcell : String)
    (cells : List Cell) : Except PyErr Simulation :=
  match simReg.find? (fun r => r.1 == wsim) with
  | none => Except.error (PyErr.attributeError (simRuleErrMsg wsim simReg))
  | some sr =>
    let e1 := { mkEnvironment p cells with boundSim := some sr.1 }
    match cellReg.find? (fun r => r.1 == wcell) with
    | none => Except.error (PyErr.attributeError (cellRuleErrMsg wcell cellReg))
    | some cr =>
      match bindCells none e1.cells with
      | Except.error err => Except.error err
      | Except.ok cells2 => Except.ok
          { simruleName := sr.1
            e := { e1 with cells := cells2, cellrule := CellruleSlot.entry cr.1 } }

/-- A concrete configuration used by the closed instances below
(`params.yaml` is external; these are representative values). -/
def p0 : Params :=
  { grid_size := 5, n_cell := 1, num_sim := 1, num_sensors := 5
    num_actions := 4, mean_death := 0, mean_sex := 0, mean_strength := 0
    mean_velocity := 0, std_death := 0, std_sex := 0, std_strength := 0
    std_velocity := 0 }

/-- A configuration whose `num_sensors` differs from the five sensor
entries hard-coded by `Cell.update_sensors`. -/
def p4 : Params := { p0 with num_sensors := 4 }

/-- A concrete cell on a 5×5 grid. -/
def cellA : Cell :=
  { grid_size := 5, alive := true, age := 0, death_age := 3, sex := 0
    strength := 0, velocity := 1, pos := (2, 3), brain_dna := []
    sensors := [], actions := [1, 0, 0, 0], boundRuleName := none }

/-- A cell built by `mkCell` from the `num_sensors = 4`
configuration. -/
def cellB : Cell := mkCell p4 (0, 0, 0, 0) [] (2, 3)

/-- A 5×5 environment with one live cell. -/
def envOne5 : Environment :=
  { clock := 0, size := 5, cells := [cellA]
    grid := List.replicate 5 (List.replicate 5 0), posMap := []
    cellrule := CellruleSlot.str "default", boundSim := none }

/-- A 5×5 environment whose live-cell collection is empty. -/
def envEmpty5 : Environment := { envOne5 with cells := [] }

/-- A simulation-rule that returns the environment unchanged (a run
with it completes every iteration). -/
def ruleOk : Environment → Except PyErr Environment := fun e => Except.ok e

/-- A simulation-rule whose invocation raises a numeric `ValueError`. -/
def ruleFail : Environment → Except PyErr Environment :=
  fun _ => Except.error (PyErr.valueError "empty population")

/-- A cell-rule that leaves the cell unchanged. -/
def ruleCell : Cell → ℕ → List (ℤ × ℤ) → Cell := fun c _ _ => c

/-! ### Helper lemmas -/

theorem live_age (c : Cell) (k : ℕ) (pm : List (ℤ × ℤ)) (r : ℝ) :
    (c.live k pm r).age = c.age + 1 := by
  simp only [Cell.live]
  split <;> rfl

theorem live_alive_mono (c : Cell) (k : ℕ) (pm : List (ℤ × ℤ)) (r : ℝ)
    (h : (c.live k pm r).alive = true) : c.alive = true := by
  simp only [Cell.live] at h
  split at h
  · exact absurd h (by simp)
  · exact h

theorem live_death_iff (c : Cell) (k : ℕ) (pm : List (ℤ × ℤ)) (r : ℝ)
    (h : c.alive = true) :
    (c.live k pm r).alive = false ↔ c.death_age ≤ (c.age : ℚ) + 1 := by
  simp only [Cell.live]
  split
  · next hcond =>
    simp only [show ∀ x : Cell, ({ x with alive := false } : Cell).alive = false
        from fun _ => rfl]
    constructor
    · intro _
      have : c.death_age ≤ ((c.age + 1 : ℕ) : ℚ) := hcond
      push_cast at this
      linarith
    · intro _; trivial
  · next hcond =>
    have hc : ¬ c.death_age ≤ (c.age : ℚ) + 1 := by
      intro hx
      apply hcond
      show c.death_age ≤ ((c.age + 1 : ℕ) : ℚ)
      push_cast
      linarith
    constructor
    · intro hx
      have : c.alive = false := hx
      rw [h] at this
      exact absurd this (by simp)
    · intro hx
      exact absurd hx hc

theorem liveSteps_age (l : List (ℕ × List (ℤ × ℤ) × ℝ)) (c : Cell) :
    (liveSteps c l).age = c.age + l.length := by
  induction l generalizing c with
  | nil => rfl
  | cons i t ih =>
    show (liveSteps (c.live i.1 i.2.1 i.2.2) t).age = c.age + (t.length + 1)
    rw [ih, live_age]
    omega

theorem liveSteps_alive_mono (l : List (ℕ × List (ℤ × ℤ) × ℝ)) (c : Cell)
    (h : (liveSteps c l).alive = true) : c.alive = true := by
  induction l generalizing c with
  | nil => exact h
  | cons i t ih =>
    have h1 : (liveSteps (c.live i.1 i.2.1 i.2.2) t).alive = true := h
    exact live_alive_mono c i.1 i.2.1 i.2.2 (ih _ h1)

theorem sigmoid_pos (z : ℝ) : 0 < sigmoid z := by
  unfold sigmoid
  positivity

theorem sigmoid_lt_one (z : ℝ) : sigmoid z < 1 := by
  unfold sigmoid
  rw [div_lt_one (by positivity)]
  linarith [Real.exp_pos (-1 * z)]

theorem roundHalfEven_of_unit (x : ℝ) (h0 : 0 < x) (h1 : x < 1) :
    roundHalfEven x = 0 ∨ roundHalfEven x = 1 := by
  have hf : ⌊x⌋ = 0 := by
    rw [Int.floor_eq_zero_iff]
    exact ⟨h0.le, h1⟩
  unfold roundHalfEven
  rw [hf]
  split_ifs <;> simp_all

theorem sum_set_le (l : List ℕ) (n : ℕ) : (l.set n 1).sum ≤ l.sum + 1 := by
  induction l generalizing n with
  | nil => simp
  | cons a t ih =>
    cases n with
    | zero =>
      simp only [List.set, List.sum_cons]
      omega
    | succ m =>
      have := ih m
      simp only [List.set, List.sum_cons]
      omega

theorem mem_set_le_one (l : List ℕ) (n : ℕ) (hl : ∀ v ∈ l, v ≤ 1) :
    ∀ v ∈ l.set n 1, v ≤ 1 := by
  induction l generalizing n with
  | nil => simp
  | cons a t ih =>
    cases n with
    | zero =>
      intro v hv
      rcases List.mem_cons.1 hv with h | h
      · omega
      · exact hl v (List.mem_cons_of_mem _ h)
    | succ m =>
      intro v hv
      rcases List.mem_cons.1 hv with h | h
      · exact h ▸ hl a (List.mem_cons_self _ _)
      · exact ih m (fun w hw => hl w (List.mem_cons_of_mem _ hw)) v h

theorem sum2d_set2d_le (g : List (List ℕ)) (x y : ℕ) :
    sum2d (set2d g x y) ≤ sum2d g + 1 := by
  induction g generalizing x with
  | nil => simp [set2d]
  | cons row t ih =>
    cases x with
    | zero =>
      have := sum_set_le row y
      simp only [set2d, sum2d, List.map_cons, List.sum_cons] at *
      omega
    | succ m =>
      have := ih m
      simp only [set2d, sum2d, List.map_cons, List.sum_cons] at *
      omega

theorem length_set2d (g : List (List ℕ)) (x y : ℕ) :
    (set2d g x y).length = g.length := by
  induction g generalizing x with
  | nil => rfl
  | cons row t ih =>
    cases x with
    | zero => simp [set2d]
    | succ m => simp [set2d, ih m]

theorem rowlens_set2d (g : List (List ℕ)) (x y k : ℕ)
    (h : ∀ row ∈ g, row.length = k) :
    ∀ row ∈ set2d g x y, row.length = k := by
  induction g generalizing x with
  | nil => simp [set2d]
  | cons row t ih =>
    cases x with
    | zero =>
      intro w hw
      rcases List.mem_cons.1 hw with hh | hh
      · rw [hh, List.length_set]
        exact h row (List.mem_cons_self _ _)
      · exact h w (List.mem_cons_of_mem _ hh)
    | succ m =>
      intro w hw
      rcases List.mem_cons.1 hw with hh | hh
      · exact hh ▸ h row (List.mem_cons_self _ _)
      · exact ih m (fun u hu => h u (List.mem_cons_of_mem _ hu)) w hh

theorem entries_set2d (g : List (List ℕ)) (x y : ℕ)
    (h : ∀ row ∈ g, ∀ v ∈ row, v ≤ 1) :
    ∀ row ∈ set2d g x y, ∀ v ∈ row, v ≤ 1 := by
  induction g generalizing x with
  | nil => simp [set2d]
  | cons row t ih =>
    cases x with
    | zero =>
      intro w hw
      rcases List.mem_cons.1 hw with hh | hh
      · exact hh ▸ mem_set_le_one row y (h row (List.mem_cons_self _ _))
      · exact h w (List.mem_cons_of_mem _ hh)
    | succ m =>
      intro w hw
      rcases List.mem_cons.1 hw with hh | hh
      · exact hh ▸ h row (List.mem_cons_self _ _)
      · exact ih m (fun u hu => h u (List.mem_cons_of_mem _ hu)) w hh

theorem sum2d_fold_le (pm : List (ℤ × ℤ)) (g : List (List ℕ)) :
    sum2d (pm.foldl (fun a q => set2dZ a q.1 q.2) g) ≤ sum2d g + pm.length := by
  induction pm generalizing g with
  | nil => simp
  | cons q t ih =>
    have h1 := ih (set2dZ g q.1 q.2)
    have h2 := sum2d_set2d_le g q.1.toNat q.2.toNat
    simp only [List.foldl_cons, List.length_cons]
    unfold set2dZ at *
    omega

theorem length_fold (pm : List (ℤ × ℤ)) (g : List (List ℕ)) :
    (pm.foldl (fun a q => set2dZ a q.1 q.2) g).length = g.length := by
  induction pm generalizing g with
  | nil => rfl
  | cons q t ih =>
    simp only [List.foldl_cons]
    rw [ih, set2dZ, length_set2d]

theorem rowlens_fold (pm : List (ℤ × ℤ)) (g : List (List ℕ)) (k : ℕ)
    (h : ∀ row ∈ g, row.length = k) :
    ∀ row ∈ pm.foldl (fun a q => set2dZ a q.1 q.2) g, row.length = k := by
  induction pm generalizing g with
  | nil => exact h
  | cons q t ih =>
    exact ih (set2dZ g q.1 q.2) (rowlens_set2d g _ _ k h)

theorem entries_fold (pm : List (ℤ × ℤ)) (g : List (List ℕ))
    (h : ∀ row ∈ g, ∀ v ∈ row, v ≤ 1) :
    ∀ row ∈ pm.foldl (fun a q => set2dZ a q.1 q.2) g, ∀ v ∈ row, v ≤ 1 := by
  induction pm generalizing g with
  | nil => exact h
  | cons q t ih =>
    exact ih (set2dZ g q.1 q.2) (entries_set2d g _ _ h)

theorem sum_le_length (l : List ℕ) (h : ∀ v ∈ l, v ≤ 1) :
    l.sum ≤ l.length := by
  induction l with
  | nil => simp
  | cons a t ih =>
    have ha := h a (List.mem_cons_self _ _)
    have := ih (fun w hw => h w (List.mem_cons_of_mem _ hw))
    simp only [List.sum_cons, List.length_cons]
    omega

theorem sum2d_le_dim (g : List (List ℕ)) (k : ℕ)
    (hrows : ∀ row ∈ g, row.length = k)
    (hent : ∀ row ∈ g, ∀ v ∈ row, v ≤ 1) :
    sum2d g ≤ g.length * k := by
  induction g with
  | nil => simp [sum2d]
  | cons row t ih =>
    have h1 : row.sum ≤ k := by
      have := sum_le_length row (hent row (List.mem_cons_self _ _))
      rw [hrows row (List.mem_cons_self _ _)] at this
      exact this
    have h2 := ih (fun u hu => hrows u (List.mem_cons_of_mem _ hu))
      (fun u hu => hent u (List.mem_cons_of_mem _ hu))
    simp only [sum2d, List.map_cons, List.sum_cons, List.length_cons] at *
    calc row.sum + (t.map (fun r => r.sum)).sum ≤ k + t.length * k := by omega
    _ = (t.length + 1) * k := by ring

theorem sum2d_zero (n m : ℕ) :
    sum2d (List.replicate n (List.replicate m 0)) = 0 := by
  simp [sum2d, List.map_replicate, List.sum_replicate]

theorem retcode_always_zero (rule : Environment → Except PyErr Environment)
    (k : ℕ) (e : Environment) (t : ℕ × Environment × Bool)
    (h : simMain rule k e = Except.ok t) : t.1 = 0 := by
  unfold simMain at h
  cases hr : runLoop rule k e with
  | error err => rw [hr] at h; exact absurd h (by simp [Except.map])
  | ok p =>
    rw [hr] at h
    simp only [Except.map] at h
    cases h
    rfl

theorem get_grid_no_attr (e : Environment) (m : String) :
    e.get_grid ≠ Except.error (PyErr.attributeError m) := by
  simp only [Environment.get_grid]
  split
  · intro h
    cases h
  · intro h
    cases h

theorem runLoop_ok_of_no_attr (rule : Environment → Except PyErr Environment)
    (hr : ∀ e2 m2, rule e2 ≠ Except.error (PyErr.attributeError m2)) :
    ∀ (n : ℕ) (e : Environment), ∃ t, runLoop rule n e = Except.ok t := by
  intro n
  induction n with
  | zero => exact fun e => ⟨(e, false), rfl⟩
  | succ k ih =>
    intro e
    unfold runLoop
    cases hs : runStep rule e with
    | ok e1 => exact ih e1
    | error err =>
      cases err with
      | valueError m => exact ⟨(e, true), rfl⟩
      | attributeError m =>
        exfalso
        unfold runStep at hs
        cases hre : rule e with
        | error err2 =>
          rw [hre] at hs
          cases hs
          exact hr e m hre
        | ok e3 =>
          rw [hre] at hs
          exact get_grid_no_attr e3 m hs

/-! ### Claim theorems -/

/-- Claim C1: the spec says that for every pair of rule names that both
resolve in their registries, Simulation construction succeeds and
attaches the resolved rules.  The code contradicts this: the per-cell
binding loop (line 129 of `main.py`) reads `self.cellrule`, an attribute
`__init__` never assigns, so for every resolvable pair of names and
every non-empty population, construction raises `AttributeError` instead
of succeeding. -/
theorem claim_C1 {σ κ : Type} (p : Params) (simReg : List (String × σ))
    (cellReg : List (String × κ)) (wsim wcell : String)
    (sr : String × σ) (cr : String × κ) (c : Cell) (cs : List Cell)
    (h1 : simReg.find? (fun x => x.1 == wsim) = some sr)
    (h2 : cellReg.find? (fun x => x.1 == wcell) = some cr) :
    simInit p simReg cellReg wsim wcell (c :: cs) =
      Except.error
        (PyErr.attributeError "Simulation object has no attribute cellrule") := by
  unfold simInit
  rw [h1]
  dsimp only
  rw [h2]
  rfl

/-- Claim C1, witness: both rule names resolve (to `default` in
one-entry registries), the population has one cell, and construction
returns the `AttributeError`. -/
theorem claim_C1_witness :
    simInit p0 ([("default", 0)] : List (String × ℕ))
        ([("default", 0)] : List (String × ℕ)) "default" "default" [cellA] =
      Except.error
        (PyErr.attributeError "Simulation object has no attribute cellrule") :=
  claim_C1 p0 _ _ "default" "default" ("default", 0) ("default", 0) cellA []
    rfl rfl

/-- Claim C2: on a non-empty live collection, `update()` broadcasts the
bound cell-rule with `(clock, pos_map)`, advances the clock by exactly
1, broadcasts `think` to every cell, keeps exactly the cells whose
`alive` flag is true, and returns the continue sentinel `1`; the
broadcast trace is the cell-rule followed by `think`, in that order. -/
theorem claim_C2 (rn : String) (rule : Cell → ℕ → List (ℤ × ℤ) → Cell)
    (e : Environment) (h : e.cells ≠ []) :
    Environment.update rn rule e =
      ({ e with
          clock := e.clock + 1
          cells := ((e.cells.map (fun c => rule c e.clock e.posMap)).map
              Cell.think).filter (fun c => c.alive) },
        1, [rn, "think"])
    ∧ ∀ c2 ∈ (Environment.update rn rule e).1.cells, c2.alive = true := by
  have hie : e.cells.isEmpty = false := by
    cases hc : e.cells with
    | nil => exact absurd hc h
    | cons a t => rfl
  constructor
  · simp [Environment.update, hie]
  · intro c2 hc2
    simp only [Environment.update, hie, Bool.false_eq_true, if_false] at hc2
    exact (List.mem_filter.1 hc2).2

/-- Claim C2, witness: one call on a one-cell environment returns the
continue sentinel. -/
theorem claim_C2_witness :
    envOne5.cells ≠ [] ∧ (Environment.update "default" ruleCell envOne5).2.1 = 1 :=
  ⟨by simp [envOne5],
   by rw [(claim_C2 "default" ruleCell envOne5 (by simp [envOne5])).1]⟩

/-- Claim C3: on an empty live collection, `update()` returns the ended
sentinel `0`, leaves the clock and the cell collection unchanged (the
whole environment is returned as-is) and performs no broadcast (the
broadcast trace is empty). -/
theorem claim_C3 (rn : String) (rule : Cell → ℕ → List (ℤ × ℤ) → Cell)
    (e : Environment) (h : e.cells = []) :
    Environment.update rn rule e = (e, 0, []) := by
  simp [Environment.update, h]

/-- Claim C3, witness: the empty 5×5 environment. -/
theorem claim_C3_witness :
    Environment.update "default" ruleCell envEmpty5 = (envEmpty5, 0, []) :=
  claim_C3 "default" ruleCell envEmpty5 rfl

/-- Claim C4: `move()` sets the position per axis to the current
position plus `velocity * (actions[0] - actions[2])` (respectively
`actions[1] - actions[3]`), clamped independently into
`[0, grid_size - 1]`; consequently both coordinates of the result lie in
`[0, grid_size - 1]` (for a grid of positive size). -/
theorem claim_C4 (c : Cell) (h : 1 ≤ c.grid_size) :
    (Cell.move c).pos.1 =
      max (min (c.pos.1 + c.velocity * (c.actions.getD 0 0 - c.actions.getD 2 0))
        (c.grid_size - 1)) 0
    ∧ (Cell.move c).pos.2 =
      max (min (c.pos.2 + c.velocity * (c.actions.getD 1 0 - c.actions.getD 3 0))
        (c.grid_size - 1)) 0
    ∧ 0 ≤ (Cell.move c).pos.1 ∧ (Cell.move c).pos.1 ≤ c.grid_size - 1
    ∧ 0 ≤ (Cell.move c).pos.2 ∧ (Cell.move c).pos.2 ≤ c.grid_size - 1 := by
  have h0 : (0 : ℚ) ≤ c.grid_size - 1 := by linarith
  refine ⟨?_, ?_, le_max_right _ _, max_le (min_le_right _ _) h0,
    le_max_right _ _, max_le (min_le_right _ _) h0⟩
  · show max (min (c.pos.1 + (c.actions.getD 0 0 - c.actions.getD 2 0) * c.velocity)
        (c.grid_size - 1)) 0 = _
    rw [mul_comm]
  · show max (min (c.pos.2 + (c.actions.getD 1 0 - c.actions.getD 3 0) * c.velocity)
        (c.grid_size - 1)) 0 = _
    rw [mul_comm]

/-- Claim C4, witness: a concrete cell on a 5×5 grid stays in
`[0, 4]` after `move()`. -/
theorem claim_C4_witness :
    (1 : ℚ) ≤ cellA.grid_size
    ∧ 0 ≤ (Cell.move cellA).pos.1 ∧ (Cell.move cellA).pos.1 ≤ cellA.grid_size - 1 :=
  ⟨by decide, (claim_C4 cellA (by decide)).2.2.1,
    (claim_C4 cellA (by decide)).2.2.2.1⟩

/-- Claim C5: over any sequence of `live` steps, `age` grows by exactly
1 per step (hence is non-decreasing); `alive` never goes from false
back to true (single-step and across any sequence, so it flips at most
once); when the cell is alive, the flip to false happens exactly when
`age >= death_age` holds after the increment; and a freshly constructed
cell starts with `alive = true` and `age = 0`. -/
theorem claim_C5 (c : Cell) (k : ℕ) (pm : List (ℤ × ℤ)) (r : ℝ)
    (l : List (ℕ × List (ℤ × ℤ) × ℝ)) :
    (c.live k pm r).age = c.age + 1
    ∧ ((c.live k pm r).alive = true → c.alive = true)
    ∧ (c.alive = true →
        ((c.live k pm r).alive = false ↔ c.death_age ≤ (c.age : ℚ) + 1))
    ∧ (liveSteps c l).age = c.age + l.length
    ∧ ((liveSteps c l).alive = true → c.alive = true)
    ∧ (∀ (p : Params) (d : ℚ × ℚ × ℚ × ℚ) (br : List (List ℝ)) (u : ℚ × ℚ),
        (mkCell p d br u).alive = true ∧ (mkCell p d br u).age = 0) :=
  ⟨live_age c k pm r,
   live_alive_mono c k pm r,
   live_death_iff c k pm r,
   liveSteps_age l c,
   liveSteps_alive_mono l c,
   fun _ _ _ _ => ⟨rfl, rfl⟩⟩

/-- Claim C5, witness: a live cell with `death_age = 3` and `age = 0`
does not die on its first step (`0 + 1 < 3`). -/
theorem claim_C5_witness :
    cellA.alive = true
    ∧ ((cellA.live 0 [] 0).alive = false ↔ cellA.death_age ≤ (cellA.age : ℚ) + 1) :=
  ⟨rfl, (claim_C5 cellA 0 [] 0 []).2.2.1 rfl⟩

/-- Claim C6: `think()` sets `actions = round(sigmoid(brain_dna ·
sensors))`, one entry per weight-matrix row (so the vector has length
`num_actions`), and every entry is exactly 0 or 1, for arbitrary
real-valued sensors and weights. -/
theorem claim_C6 (w : List (List ℝ)) (s : List ℝ) (c : Cell) :
    (Cell.think c).actions = thinkVec c.brain_dna c.sensors
    ∧ (thinkVec w s).length = w.length
    ∧ ∀ i : Fin (thinkVec w s).length,
        (thinkVec w s).get i = 0 ∨ (thinkVec w s).get i = 1 := by
  refine ⟨rfl, by simp [thinkVec], ?_⟩
  intro i
  obtain ⟨iv, hlt⟩ := i
  rw [List.get_eq_getElem]
  simp only [thinkVec, List.getElem_map]
  rcases roundHalfEven_of_unit _ (sigmoid_pos _) (sigmoid_lt_one _) with hh | hh
  · left
    rw [hh]
    norm_num
  · right
    rw [hh]
    norm_num

/-- Claim C7, corrected: `update_sensors` always produces the fixed
five-entry vector `[1, random, sin(pi*clock/10), pos.x/grid_size,
pos.y/grid_size]`, so its length is 5 — equal to `num_sensors` only
when `num_sensors = 5`, not for every configured value. -/
theorem claim_C7 (c : Cell) (k : ℕ) (pm : List (ℤ × ℤ)) (r : ℝ) :
    (c.update_sensors k pm r).sensors =
      [1, r, Real.sin (Real.pi * (k : ℝ) / 10),
       (c.pos.1 : ℝ) / (c.grid_size : ℝ), (c.pos.2 : ℝ) / (c.grid_size : ℝ)]
    ∧ (c.update_sensors k pm r).sensors.length = 5 :=
  ⟨rfl, rfl⟩

/-- Claim C7, counterexample: with `num_sensors = 4` configured, the
sensor vector produced by `update_sensors` does not have length
`num_sensors`. -/
theorem claim_C7_counterexample :
    (Cell.update_sensors cellB 0 [] 0).sensors.length ≠ p4.num_sensors := by
  decide

/-- Claim C8, corrected and restricted to a non-empty live collection
(on an empty one `get_grid` raises, see the counterexample):
`get_grid` rebuilds `pos_map` with one integer pair per live cell,
rebuilds the grid from all-zero marking occupied coordinates with `1`
and no overlap count (every entry stays at most 1), and the grid sum is
at most the number of live cells and at most `grid_size²`.  Positions
are required in range, as numpy indexing demands. -/
theorem claim_C8 (e : Environment) (h : e.cells ≠ [])
    (hb : ∀ c ∈ e.cells, 0 ≤ pyInt c.pos.1 ∧ pyInt c.pos.1 < (e.size : ℤ)
        ∧ 0 ≤ pyInt c.pos.2 ∧ pyInt c.pos.2 < (e.size : ℤ)) :
    ∃ e2, e.get_grid = Except.ok e2
      ∧ e2.posMap = e.cells.map (fun c => (pyInt c.pos.1, pyInt c.pos.2))
      ∧ e2.posMap.length = e.cells.length
      ∧ (∀ row ∈ e2.grid, ∀ v ∈ row, v ≤ 1)
      ∧ sum2d e2.grid ≤ e.cells.length
      ∧ sum2d e2.grid ≤ e.size * e.size := by
  obtain ⟨c0, cs, hcc⟩ : ∃ c0 cs, e.cells = c0 :: cs := by
    cases hc : e.cells with
    | nil => exact absurd hc h
    | cons a t => exact ⟨a, t, rfl⟩
  have hni : (e.cells.map (fun c => (pyInt c.pos.1, pyInt c.pos.2))).isEmpty
      = false := by rw [hcc]; rfl
  have hz : ∀ row ∈ List.replicate e.size (List.replicate e.size (0 : ℕ)),
      ∀ v ∈ row, v ≤ 1 := by
    intro row hrow v hv
    rw [List.eq_of_mem_replicate hrow] at hv
    rw [List.eq_of_mem_replicate hv]
    omega
  have hzl : ∀ row ∈ List.replicate e.size (List.replicate e.size (0 : ℕ)),
      row.length = e.size := by
    intro row hrow
    rw [List.eq_of_mem_replicate hrow, List.length_replicate]
  refine ⟨{ e with
      grid := (e.cells.map (fun c => (pyInt c.pos.1, pyInt c.pos.2))).foldl
        (fun g q => set2dZ g q.1 q.2)
        (List.replicate e.size (List.replicate e.size 0))
      posMap := e.cells.map (fun c => (pyInt c.pos.1, pyInt c.pos.2)) },
    ?_, rfl, by simp, ?_, ?_, ?_⟩
  · simp [Environment.get_grid, hni]
  · exact entries_fold _ _ hz
  · have h1 := sum2d_fold_le (e.cells.map (fun c => (pyInt c.pos.1, pyInt c.pos.2)))
      (List.replicate e.size (List.replicate e.size 0))
    rw [sum2d_zero, List.length_map] at h1
    dsimp only
    omega
  · have h2 := sum2d_le_dim
      ((e.cells.map (fun c => (pyInt c.pos.1, pyInt c.pos.2))).foldl
        (fun a q => set2dZ a q.1 q.2)
        (List.replicate e.size (List.replicate e.size 0)))
      e.size
      (rowlens_fold (e.cells.map (fun c => (pyInt c.pos.1, pyInt c.pos.2)))
        (List.replicate e.size (List.replicate e.size 0)) e.size hzl)
      (entries_fold (e.cells.map (fun c => (pyInt c.pos.1, pyInt c.pos.2)))
        (List.replicate e.size (List.replicate e.size 0)) hz)
    rw [length_fold, List.length_replicate] at h2
    exact h2

/-- Claim C8, witness: the one-cell 5×5 environment. -/
theorem claim_C8_witness :
    envOne5.cells ≠ []
    ∧ ∃ e2, envOne5.get_grid = Except.ok e2
      ∧ e2.posMap = envOne5.cells.map (fun c => (pyInt c.pos.1, pyInt c.pos.2))
      ∧ e2.posMap.length = envOne5.cells.length
      ∧ (∀ row ∈ e2.grid, ∀ v ∈ row, v ≤ 1)
      ∧ sum2d e2.grid ≤ envOne5.cells.length
      ∧ sum2d e2.grid ≤ envOne5.size * envOne5.size :=
  ⟨by simp [envOne5], claim_C8 envOne5 (by simp [envOne5]) (by decide)⟩

/-- Claim C8, counterexample: on an environment with zero live cells
`get_grid` does not rebuild anything — the tuple unpacking of the empty
`pos_map` raises `ValueError`, contradicting the claim's "any number of
live cells, including zero". -/
theorem claim_C8_counterexample :
    envEmpty5.get_grid = Except.error (PyErr.valueError unpackMsg) := rfl

/-- Claim C9, corrected: when an iteration of the run loop raises a
numeric `ValueError`, the loop terminates early (the remaining
iterations are skipped), the condition is reported as the diagnostic
flag, and the fault is not propagated — but the returned status is `0`,
the same value every completed run returns, so it is not
distinguishable from a full run's status (see the counterexample). -/
theorem claim_C9 (rule : Environment → Except PyErr Environment) (n : ℕ)
    (e : Environment) (m : String)
    (h : runStep rule e = Except.error (PyErr.valueError m)) :
    simMain rule (n + 1) e = Except.ok (0, e, true)
    ∧ ∀ (rule2 : Environment → Except PyErr Environment) (k : ℕ)
        (e2 : Environment) (t : ℕ × Environment × Bool),
        simMain rule2 k e2 = Except.ok t → t.1 = 0 := by
  constructor
  · unfold simMain
    rw [show runLoop rule (n + 1) e = Except.ok (e, true) from by
      unfold runLoop; rw [h]]
    rfl
  · exact fun rule2 k e2 t ht => retcode_always_zero rule2 k e2 t ht

/-- Claim C9, witness: with an identity simulation-rule on the empty
population, `get_grid` raises in the first iteration and the run ends
early with status 0. -/
theorem claim_C9_witness :
    runStep ruleOk envEmpty5 = Except.error (PyErr.valueError unpackMsg)
    ∧ simMain ruleOk 1 envEmpty5 = Except.ok (0, envEmpty5, true) :=
  ⟨rfl, (claim_C9 ruleOk 0 envEmpty5 unpackMsg rfl).1⟩

/-- Claim C9, counterexample to distinguishability: a run whose
simulation-rule raises a numeric fault ends early, a run with an
identity rule completes all its iterations, yet both return the same
status `0`. -/
theorem claim_C9_counterexample :
    earlyOf (simMain ruleFail 1 envOne5) = some true
    ∧ earlyOf (simMain ruleOk 1 envOne5) = some false
    ∧ retcodeOf (simMain ruleFail 1 envOne5) = retcodeOf (simMain ruleOk 1 envOne5) :=
  ⟨rfl, rfl, rfl⟩

/-- Claim C10: a simulation-rule name missing from its registry makes
construction fail immediately with an `AttributeError` whose message
enumerates every registered name; likewise for a cell-rule name (after
the simulation-rule resolved); and the failure cannot occur mid-run:
the run loop performs no name resolution, so as long as the plugged
rule raises no `AttributeError` itself, `main` always returns normally. -/
theorem claim_C10 {σ κ : Type} (p : Params) (simReg : List (String × σ))
    (cellReg : List (String × κ)) (wsim wcell : String) (cells : List Cell) :
    (simReg.find? (fun x => x.1 == wsim) = none →
      simInit p simReg cellReg wsim wcell cells =
        Except.error (PyErr.attributeError (simRuleErrMsg wsim simReg)))
    ∧ (∀ sr, simReg.find? (fun x => x.1 == wsim) = some sr →
        cellReg.find? (fun x => x.1 == wcell) = none →
        simInit p simReg cellReg wsim wcell cells =
          Except.error (PyErr.attributeError (cellRuleErrMsg wcell cellReg)))
    ∧ (∀ (rule : Environment → Except PyErr Environment) (n : ℕ)
        (e : Environment),
        (∀ e2 m2, rule e2 ≠ Except.error (PyErr.attributeError m2)) →
        ∃ t, simMain rule n e = Except.ok t) := by
  refine ⟨?_, ?_, ?_⟩
  · intro h
    unfold simInit
    rw [h]
  · intro sr h1 h2
    unfold simInit
    rw [h1]
    dsimp only
    rw [h2]
  · intro rule n e hr
    obtain ⟨t, ht⟩ := runLoop_ok_of_no_attr rule hr n e
    exact ⟨(0, t.1, t.2), by unfold simMain; rw [ht]; rfl⟩

/-- Claim C10, witness: an unknown name against an empty simulation-rule
registry, an unknown name against an empty cell-rule registry, and a
two-iteration run with a fault-free rule that returns normally. -/
theorem claim_C10_witness :
    simInit p0 ([] : List (String × ℕ)) ([("live", 0)] : List (String × ℕ))
        "default" "live" [] =
      Except.error
        (PyErr.attributeError (simRuleErrMsg "default" ([] : List (String × ℕ))))
    ∧ simInit p0 ([("default", 0)] : List (String × ℕ))
        ([] : List (String × ℕ)) "default" "live" [] =
      Except.error
        (PyErr.attributeError (cellRuleErrMsg "live" ([] : List (String × ℕ))))
    ∧ ∃ t, simMain ruleOk 2 envOne5 = Except.ok t :=
  ⟨(claim_C10 p0 ([] : List (String × ℕ)) ([("live", 0)] : List (String × ℕ))
      "default" "live" []).1 rfl,
   (claim_C10 p0 ([("default", 0)] : List (String × ℕ))
      ([] : List (String × ℕ)) "default" "live" []).2.1 ("default", 0) rfl rfl,
   (claim_C10 p0 ([] : List (String × ℕ)) ([] : List (String × ℕ)) "x" "x"
      []).2.2 ruleOk 2 envOne5 (fun e2 m2 hx => Except.noConfusion hx)⟩

end Evo
